import Mathlib

/-!
Verification of the `usePresence` hook (src/packages/use-presence/src/index.tsx).

The hook is a presence/transition state machine driven by React renders:
three boolean state variables (`animateIsVisible`, `isMounted`, `hasEntered`),
three `useEffect` blocks with dependency arrays and cleanup functions, one
`setTimeout` exit timer, one `requestAnimationFrame` ("next paint") callback
and one `setTimeout` enter timer.

The shallow embedding below models:
* the runtime configuration objects (`SharedTransitionConfig` /
  `SeparateTransitionConfig` union) as a record of optional fields, with the
  source's `isSharedConfig` shape test and the two duration resolutions;
* one React render-commit cycle as `commitPass`: an effect re-runs exactly
  when its dependency tuple differs from the previous render's tuple; when it
  re-runs, its previous cleanup (cancelling the task that effect scheduled)
  runs first, then its body; `setState` calls made by effect bodies are
  committed at the next render, and renders repeat until the state no longer
  changes (`renderLoop`);
* the external events as explicit steps: `evaluateD` (a caller-driven render
  with new props), `fireExit` / `fireEnter` (a pending `setTimeout` fires),
  `fireAnim` (the pending `requestAnimationFrame` callback fires).

Durations are JavaScript numbers in the source; the claims only exercise
integral values, so they are modelled as `Int` (negative values included).
-/

/-! ## Configuration objects

The source's `opts` parameter has TypeScript type
`(SharedTransitionConfig | SeparateTransitionConfig) & {initialEnter?: boolean}`.
At runtime it is a plain object on which any of the four fields may be absent,
which the embedding models as `Option`-valued fields. -/

structure PresenceOpts where
  transitionDuration : Option Int
  enterTransitionDuration : Option Int
  exitTransitionDuration : Option Int
  initialEnter : Option Bool
deriving Repr, DecidableEq

/-- Source `isSharedConfig`: `return 'transitionDuration' in opts` — a pure
presence test of the `transitionDuration` key. -/
def isSharedConfig (opts : PresenceOpts) : Bool :=
  opts.transitionDuration.isSome

/-- Source: `const exitTransitionDuration = !isSharedConfig(opts)
? opts.exitTransitionDuration : opts.transitionDuration;` (`none` models the
JavaScript `undefined` read of an absent field). -/
def resolvedExitDuration (opts : PresenceOpts) : Option Int :=
  if !isSharedConfig opts then opts.exitTransitionDuration else opts.transitionDuration

/-- Source: `const enterTransitionDuration = !isSharedConfig(opts)
? opts.enterTransitionDuration : opts.transitionDuration;` -/
def resolvedEnterDuration (opts : PresenceOpts) : Option Int :=
  if !isSharedConfig opts then opts.enterTransitionDuration else opts.transitionDuration

/-- Source: `const initialEnter = opts.initialEnter ?? false;` -/
def resolvedInitialEnter (opts : PresenceOpts) : Bool :=
  opts.initialEnter.getD false

/-! ## The `typeof document !== undefined` guard

The second effect contains `if (typeof document !== undefined) { document.body.offsetHeight; }`.
`typeof document` is a JavaScript *string* (`"object"` when a DOM is present,
`"undefined"` otherwise), and it is compared with strict inequality against
the *value* `undefined`, not against the string `'undefined'`. A tiny
JavaScript value embedding captures exactly this comparison. -/

inductive JSVal where
  | str (s : String)
  | undefinedV
deriving Repr, DecidableEq

/-- JavaScript strict equality `===` restricted to the values that occur in
the guard: two strings are strictly equal iff equal, `undefined` is strictly
equal only to itself, and a string is never strictly equal to `undefined`. -/
def jsStrictEq : JSVal → JSVal → Bool
  | JSVal.str a, JSVal.str b => a == b
  | JSVal.undefinedV, JSVal.undefinedV => true
  | _, _ => false

/-- `typeof document`: the string `"object"` in a DOM environment and the
string `"undefined"` where `document` is not defined. -/
def typeofDocument (hasDOM : Bool) : JSVal :=
  JSVal.str (if hasDOM then "object" else "undefined")

/-- The guard of the reflow-forcing branch as written in the source:
`typeof document !== undefined`. -/
def reflowGuard (hasDOM : Bool) : Bool :=
  !jsStrictEq (typeofDocument hasDOM) JSVal.undefinedV

/-! ## Hook state

One `Hook` value is the state of the component between two units of work on
the UI thread: the current props (target visibility and the two resolved
durations), the three committed `useState` values, and the pending scheduled
tasks (at most one per effect — each effect's cleanup cancels the task that
same effect scheduled).  `exitTimer` / `enterTimer` hold the delay the pending
`setTimeout` was scheduled with; `animFrame` records a pending
`requestAnimationFrame` callback. -/

structure Hook where
  isVisible : Bool
  enterD : Int
  exitD : Int
  animateIsVisible : Bool
  isMounted : Bool
  hasEntered : Bool
  exitTimer : Option Int
  animFrame : Bool
  enterTimer : Option Int
deriving Repr, DecidableEq

/-- Dependency array of the first effect: `[isVisible, exitTransitionDuration]`. -/
def deps1of (h : Hook) : Bool × Int := (h.isVisible, h.exitD)

/-- Dependency array of the second effect:
`[animateIsVisible, enterTransitionDuration, isMounted, isVisible]`. -/
def deps2of (h : Hook) : Bool × Int × Bool × Bool :=
  (h.animateIsVisible, h.enterD, h.isMounted, h.isVisible)

/-- Dependency array of the third effect:
`[animateIsVisible, enterTransitionDuration, hasEntered]`. -/
def deps3of (h : Hook) : Bool × Int × Bool :=
  (h.animateIsVisible, h.enterD, h.hasEntered)

/-- One commit: each effect whose `run` flag is set first runs its previous
cleanup (cancelling that effect's pending task, a no-op when none is pending)
and then its body.  Bodies observe the committed state `h`; the `setState`
calls they make (`setIsMounted`, `setHasEntered`, `setAnimateIsVisible`) are
committed into the returned state, to take effect at the next render.

* effect 1: `if (isVisible) { setIsMounted(true) } else { setHasEntered(false);
  setAnimateIsVisible(false); timeoutId = setTimeout(.. setIsMounted(false) ..,
  exitTransitionDuration) }`, cleanup `clearTimeout(timeoutId)`;
* effect 2: `if (isVisible && isMounted && !animateIsVisible) { reflow;
  animationFrameId = requestAnimationFrame(.. setAnimateIsVisible(true) ..) }`,
  cleanup `cancelAnimationFrame(animationFrameId)` (the forced reflow reads
  `document.body.offsetHeight` and does not touch hook state);
* effect 3: `if (animateIsVisible && !hasEntered) { timeoutId = setTimeout(..
  setHasEntered(true) .., enterTransitionDuration) }`, cleanup
  `clearTimeout(timeoutId)`. -/
def commitPassCore (run1 run2 run3 : Bool) (h : Hook) : Hook :=
  { isVisible := h.isVisible
    enterD := h.enterD
    exitD := h.exitD
    animateIsVisible := if run1 && !h.isVisible then false else h.animateIsVisible
    isMounted := if run1 && h.isVisible then true else h.isMounted
    hasEntered := if run1 && !h.isVisible then false else h.hasEntered
    exitTimer := if run1 then (if h.isVisible then none else some h.exitD) else h.exitTimer
    animFrame := if run2 then (h.isVisible && h.isMounted && !h.animateIsVisible) else h.animFrame
    enterTimer :=
      if run3 then (if h.animateIsVisible && !h.hasEntered then some h.enterD else none)
      else h.enterTimer }

/-- React's dependency comparison: the effect re-runs exactly when the tuple
differs from the previous render's tuple. -/
def runFlag {α : Type} [DecidableEq α] (curDeps prevDeps : α) : Bool :=
  if curDeps = prevDeps then false else true

/-- A re-render commit: an effect re-runs exactly when its dependency tuple
computed at the current render `cur` differs from the tuple computed at the
previous render `prev`. -/
def commitPass (prev cur : Hook) : Hook :=
  commitPassCore (runFlag (deps1of cur) (deps1of prev))
    (runFlag (deps2of cur) (deps2of prev))
    (runFlag (deps3of cur) (deps3of prev)) cur

/-- The three committed `useState` values of a render. -/
def flagsOf (h : Hook) : Bool × Bool × Bool :=
  (h.animateIsVisible, h.isMounted, h.hasEntered)

/-- React's re-render loop: commit, and re-render while the effects' `setState`
calls changed some state value (fuelled; `renderLoop_two_passes` below shows
the loop always stabilises on the second pass, so the fuel never runs out). -/
def renderLoop : Nat → Hook → Hook → Hook
  | 0, _, cur => cur
  | Nat.succ n, prev, cur =>
    let next := commitPass prev cur
    if flagsOf next = flagsOf cur then next else renderLoop n cur next

/-- Run the render loop to quiescence from previous render `prev` and freshly
rendered state `cur`. -/
def settle (prev cur : Hook) : Hook :=
  renderLoop 8 prev cur

/-- A caller-driven render with new props (target visibility and resolved
durations); the committed state and pending tasks carry over. -/
def setProps (h : Hook) (v : Bool) (eD xD : Int) : Hook :=
  { h with isVisible := v, enterD := eD, exitD := xD }

/-- `evaluate` at the resolved-duration level: re-render with target
visibility `v`, resolved enter duration `eD` and resolved exit duration `xD`,
then let the effects and their `setState` calls settle. -/
def evaluateD (h : Hook) (v : Bool) (eD xD : Int) : Hook :=
  settle h (setProps h v eD xD)

/-- The pending exit `setTimeout` fires: its handle is consumed and
`setIsMounted(false)` triggers a re-render. -/
def fireExit (h : Hook) : Hook :=
  settle h { h with exitTimer := none, isMounted := false }

/-- The pending `requestAnimationFrame` callback fires: its handle is consumed
and `setAnimateIsVisible(true)` triggers a re-render. -/
def fireAnim (h : Hook) : Hook :=
  settle h { h with animFrame := false, animateIsVisible := true }

/-- The pending enter `setTimeout` fires: its handle is consumed and
`setHasEntered(true)` triggers a re-render. -/
def fireEnter (h : Hook) : Hook :=
  settle h { h with enterTimer := none, hasEntered := true }

/-- The very first render: the `useState` initialisers.
`animateIsVisible = initialEnter ? false : isVisible`, `isMounted = isVisible`,
`hasEntered = initialEnter ? false : isVisible`; nothing is scheduled yet. -/
def initialHook (v ie : Bool) (eD xD : Int) : Hook :=
  { isVisible := v
    enterD := eD
    exitD := xD
    animateIsVisible := if ie then false else v
    isMounted := v
    hasEntered := if ie then false else v
    exitTimer := none
    animFrame := false
    enterTimer := none }

/-- Initial mount: the first render commits and every effect runs
unconditionally (there is no previous dependency tuple), then the loop
settles. -/
def initHookD (v ie : Bool) (eD xD : Int) : Hook :=
  let h0 := initialHook v ie eD xD
  let h1 := commitPassCore true true true h0
  if flagsOf h1 = flagsOf h0 then h1 else settle h0 h1

/-- The record returned by the hook, derived from the committed state and the
current target visibility:
`isExiting = isMounted && !isVisible`, `isEntering = isVisible && !hasEntered`,
`isAnimating = isEntering || isExiting`, and the exposed `isVisible` is the
internal `animateIsVisible`. -/
structure PresenceResult where
  isMounted : Bool
  isVisible : Bool
  isAnimating : Bool
  isEntering : Bool
  isExiting : Bool
deriving Repr, DecidableEq

def observe (h : Hook) : PresenceResult :=
  { isMounted := h.isMounted
    isVisible := h.animateIsVisible
    isAnimating := (h.isVisible && !h.hasEntered) || (h.isMounted && !h.isVisible)
    isEntering := h.isVisible && !h.hasEntered
    isExiting := h.isMounted && !h.isVisible }

/-- `evaluate` at the configuration level: the durations are resolved from the
options exactly as the source does; an absent (undefined) duration reaches
`setTimeout` as `undefined`, which the platform treats as a 0 delay. -/
def evaluate (h : Hook) (isVisible : Bool) (opts : PresenceOpts) : Hook :=
  evaluateD h isVisible ((resolvedEnterDuration opts).getD 0)
    ((resolvedExitDuration opts).getD 0)

/-- Initial mount at the configuration level. -/
def initHook (isVisible : Bool) (opts : PresenceOpts) : Hook :=
  initHookD isVisible (resolvedInitialEnter opts)
    ((resolvedEnterDuration opts).getD 0) ((resolvedExitDuration opts).getD 0)

/-! ## Events and reachability -/

/-- One unit of work on the UI thread: a caller-driven `evaluate` with
arbitrary target visibility and resolved durations, or the firing of one of
the pending scheduled callbacks. -/
inductive HookStep : Hook → Hook → Prop where
  | eval (h : Hook) (v : Bool) (eD xD : Int) : HookStep h (evaluateD h v eD xD)
  | exitFires (h : Hook) : h.exitTimer.isSome = true → HookStep h (fireExit h)
  | animFires (h : Hook) : h.animFrame = true → HookStep h (fireAnim h)
  | enterFires (h : Hook) : h.enterTimer.isSome = true → HookStep h (fireEnter h)

/-- The states an execution can reach: initial mount with target visibility
`v` and `initialEnter` flag `ie`, followed by any sequence of `evaluate`
calls and fired timer/paint callbacks. -/
def ReachableFrom (v ie : Bool) (eD xD : Int) (h : Hook) : Prop :=
  Relation.ReflTransGen HookStep (initHookD v ie eD xD) h

/-! ## The inductive invariant

At every quiescent point between two units of UI-thread work:
* a pending `requestAnimationFrame` callback exists exactly when the second
  effect's guard holds of the committed state (its dependency array contains
  every variable the guard reads, so the effect re-ran whenever the guard
  could have changed, and the cleanup cancelled a stale callback);
* likewise the pending enter timer exists (with the current resolved enter
  duration) exactly when the third effect's guard holds;
* a pending exit timer implies the target is not visible;
* unmounted (and, more generally, not-visible) states have both animation
  flags down, and a visible target is always mounted. -/

def HookInv (h : Hook) : Prop :=
  (h.isMounted = false → h.animateIsVisible = false ∧ h.hasEntered = false) ∧
  (h.animFrame = (h.isVisible && h.isMounted && !h.animateIsVisible)) ∧
  (h.enterTimer = if h.animateIsVisible && !h.hasEntered then some h.enterD else none) ∧
  (h.exitTimer.isSome = true → h.isVisible = false) ∧
  (h.isVisible = true → h.isMounted = true) ∧
  (h.hasEntered = true → h.animateIsVisible = true) ∧
  (h.isVisible = false → h.animateIsVisible = false ∧ h.hasEntered = false)

/-! ## Named configurations and scenario states used by the claims -/

/-- The shared-shape configuration `{transitionDuration: 100}`. -/
def sharedCfg100 : PresenceOpts := ⟨some 100, none, none, none⟩

/-- The separate-shape configuration
`{enterTransitionDuration: 50, exitTransitionDuration: 200}`. -/
def sepCfg : PresenceOpts := ⟨none, some 50, some 200, none⟩

/-- Mount-to-animate intermediate state: starting hidden and then evaluating
with `isVisible = true` (mounted, not yet animating, next-paint callback
pending). -/
def mountedPreEntry : Hook := evaluate (initHook false sharedCfg100) true sharedCfg100

/-- The entered state produced by constructing visible without `initialEnter`:
all three internal flags hold. -/
def enteredState : Hook := initHook true sharedCfg100

/-! ## The render loop stabilises on the second pass

`deps1of` reads only props, which a commit never changes, so the first effect
(the only one whose body calls `setState` synchronously committed flags) can
re-run at most in the first pass after a prop change or a fired callback;
every later pass leaves the flags unchanged and the loop stops. -/

theorem commitPassCore_isVisible (r1 r2 r3 : Bool) (h : Hook) :
    (commitPassCore r1 r2 r3 h).isVisible = h.isVisible := rfl

theorem commitPassCore_exitD (r1 r2 r3 : Bool) (h : Hook) :
    (commitPassCore r1 r2 r3 h).exitD = h.exitD := rfl

theorem commitPassCore_enterD (r1 r2 r3 : Bool) (h : Hook) :
    (commitPassCore r1 r2 r3 h).enterD = h.enterD := rfl

theorem deps1of_commitPass (prev cur : Hook) :
    deps1of (commitPass prev cur) = deps1of cur := rfl

theorem flagsOf_commitPass_of_deps1_eq (prev cur : Hook)
    (hd : deps1of cur = deps1of prev) :
    flagsOf (commitPass prev cur) = flagsOf cur := by
  simp [commitPass, commitPassCore, runFlag, flagsOf, hd]

theorem renderLoop_two_passes (n : Nat) (prev cur : Hook) :
    renderLoop (n + 2) prev cur =
      (if flagsOf (commitPass prev cur) = flagsOf cur then commitPass prev cur
       else commitPass cur (commitPass prev cur)) := by
  show (let next := commitPass prev cur;
        if flagsOf next = flagsOf cur then next else renderLoop (n + 1) cur next) = _
  by_cases h1 : flagsOf (commitPass prev cur) = flagsOf cur
  · simp [h1]
  · have h2 : deps1of (commitPass prev cur) = deps1of cur := deps1of_commitPass prev cur
    have h3 : flagsOf (commitPass cur (commitPass prev cur)) =
        flagsOf (commitPass prev cur) :=
      flagsOf_commitPass_of_deps1_eq cur (commitPass prev cur) h2
    simp only [h1, if_neg]
    show (let next2 := commitPass cur (commitPass prev cur);
          if flagsOf next2 = flagsOf (commitPass prev cur) then next2
          else renderLoop n (commitPass prev cur) next2) = _
    simp [h1, h3]

theorem settle_eq (prev cur : Hook) :
    settle prev cur =
      (if flagsOf (commitPass prev cur) = flagsOf cur then commitPass prev cur
       else commitPass cur (commitPass prev cur)) :=
  renderLoop_two_passes 6 prev cur

theorem inv_init (v ie : Bool) (eD xD : Int) : HookInv (initHookD v ie eD xD) := by
  cases v <;> cases ie <;>
    simp [HookInv, initHookD, initialHook, commitPassCore, flagsOf]

theorem inv_fireAnim (h : Hook) (hI : HookInv h) (hAF : h.animFrame = true) :
    HookInv (fireAnim h) := by
  obtain ⟨V, eD0, xD0, a, m, e, XT, AF, ET⟩ := h
  obtain ⟨hA, hB, hC, hD, hE, hG, hH⟩ := hI
  simp only [fireAnim]
  rw [settle_eq]
  cases V <;> cases a <;> cases m <;> cases e <;> cases XT <;>
    simp_all [HookInv, commitPass, commitPassCore, runFlag, deps1of, deps2of, deps3of,
      flagsOf]

theorem inv_fireEnter (h : Hook) (hI : HookInv h) (hET : h.enterTimer.isSome = true) :
    HookInv (fireEnter h) := by
  obtain ⟨V, eD0, xD0, a, m, e, XT, AF, ET⟩ := h
  obtain ⟨hA, hB, hC, hD, hE, hG, hH⟩ := hI
  simp only [fireEnter]
  rw [settle_eq]
  cases V <;> cases a <;> cases m <;> cases e <;> cases XT <;>
    simp_all [HookInv, commitPass, commitPassCore, runFlag, deps1of, deps2of, deps3of,
      flagsOf]

theorem inv_fireExit (h : Hook) (hI : HookInv h) (hXT : h.exitTimer.isSome = true) :
    HookInv (fireExit h) := by
  obtain ⟨V, eD0, xD0, a, m, e, XT, AF, ET⟩ := h
  obtain ⟨hA, hB, hC, hD, hE, hG, hH⟩ := hI
  simp only [fireExit]
  rw [settle_eq]
  cases V <;> cases a <;> cases m <;> cases e <;> cases XT <;>
    simp_all [HookInv, commitPass, commitPassCore, runFlag, deps1of, deps2of, deps3of,
      flagsOf]

theorem inv_eval (h : Hook) (hI : HookInv h) (v : Bool) (eD xD : Int) :
    HookInv (evaluateD h v eD xD) := by
  obtain ⟨V, eD0, xD0, a, m, e, XT, AF, ET⟩ := h
  obtain ⟨hA, hB, hC, hD, hE, hG, hH⟩ := hI
  simp only [evaluateD, setProps]
  rw [settle_eq]
  rcases eq_or_ne eD eD0 with heD | heD <;> rcases eq_or_ne xD xD0 with hxD | hxD <;>
    cases v <;> cases V <;> cases a <;> cases m <;> cases e <;> cases XT <;>
      simp_all [HookInv, commitPass, commitPassCore, runFlag, deps1of, deps2of, deps3of,
        flagsOf]

theorem inv_of_step (h h' : Hook) (hs : HookStep h h') (hI : HookInv h) : HookInv h' := by
  cases hs with
  | eval v eD xD => exact inv_eval h hI v eD xD
  | exitFires hp => exact inv_fireExit h hI hp
  | animFires hp => exact inv_fireAnim h hI hp
  | enterFires hp => exact inv_fireEnter h hI hp

theorem inv_of_reachable (v ie : Bool) (eD xD : Int) (h : Hook)
    (hr : ReachableFrom v ie eD xD h) : HookInv h := by
  induction hr with
  | refl => exact inv_init v ie eD xD
  | tail _ hs ih => exact inv_of_step _ _ hs ih

/-- Evaluating with target visibility `false` always cancels the pending
next-paint callback and the pending enter timer (the first effect drops both
animation flags, and the second and third effects — whose dependency arrays
contain every variable their guards read — re-run, run their cleanups, and
find their guards false), and it forces both animation flags down. -/
theorem eval_false_cancels (h : Hook) (hI : HookInv h) (eD xD : Int) :
    (evaluateD h false eD xD).animFrame = false ∧
      (evaluateD h false eD xD).enterTimer = none ∧
      (evaluateD h false eD xD).animateIsVisible = false ∧
      (evaluateD h false eD xD).hasEntered = false := by
  obtain ⟨V, eD0, xD0, a, m, e, XT, AF, ET⟩ := h
  obtain ⟨hA, hB, hC, hD, hE, hG, hH⟩ := hI
  simp only [evaluateD, setProps]
  rw [settle_eq]
  rcases eq_or_ne eD eD0 with heD | heD <;> rcases eq_or_ne xD xD0 with hxD | hxD <;>
    cases V <;> cases a <;> cases m <;> cases e <;> cases XT <;>
      simp_all [commitPass, commitPassCore, runFlag, deps1of, deps2of, deps3of, flagsOf]

/-! ## Claims -/

/-- C1: for every sequence of `evaluate` calls and fired timer/paint
callbacks, whenever the internal state has `isMounted = false` it also has
`animateIsVisible = false` and `hasEntered = false`. -/
theorem claim_C1 (v ie : Bool) (eD xD : Int) (h : Hook)
    (hr : ReachableFrom v ie eD xD h) (hm : h.isMounted = false) :
    h.animateIsVisible = false ∧ h.hasEntered = false :=
  (inv_of_reachable v ie eD xD h hr).1 hm

theorem claim_C1_witness :
    (initHookD false false 0 0).isMounted = false ∧
      (initHookD false false 0 0).animateIsVisible = false ∧
      (initHookD false false 0 0).hasEntered = false :=
  ⟨by decide, claim_C1 false false 0 0 (initHookD false false 0 0)
    Relation.ReflTransGen.refl (by decide)⟩

/-- C2: in every state and for every target visibility, the derived outputs
`isEntering` and `isExiting` are never both true. -/
theorem claim_C2 (h : Hook) :
    ((observe h).isEntering && (observe h).isExiting) = false := by
  obtain ⟨V, eD0, xD0, a, m, e, XT, AF, ET⟩ := h
  cases V <;> simp [observe]

/-- C3: mount-then-settle. Starting from the unmounted state
(`isVisible = false`), `evaluate(true, {transitionDuration: 100})` immediately
yields `isMounted = true`, output `isVisible = false`, `isEntering = true`
(with the next-paint callback pending); after the next-paint callback fires
the output is `isVisible = true`, `isEntering = true` (with the 100ms enter
timer pending); after the enter timer fires the output is
`isEntering = false`, `isVisible = true` with no pending transitions. -/
theorem claim_C3 :
    observe mountedPreEntry =
        { isMounted := true, isVisible := false, isAnimating := true,
          isEntering := true, isExiting := false } ∧
      mountedPreEntry.animFrame = true ∧
      mountedPreEntry.enterTimer = none ∧ mountedPreEntry.exitTimer = none ∧
      observe (fireAnim mountedPreEntry) =
        { isMounted := true, isVisible := true, isAnimating := true,
          isEntering := true, isExiting := false } ∧
      (fireAnim mountedPreEntry).enterTimer = some 100 ∧
      observe (fireEnter (fireAnim mountedPreEntry)) =
        { isMounted := true, isVisible := true, isAnimating := false,
          isEntering := false, isExiting := false } ∧
      (fireEnter (fireAnim mountedPreEntry)).exitTimer = none ∧
      (fireEnter (fireAnim mountedPreEntry)).animFrame = false ∧
      (fireEnter (fireAnim mountedPreEntry)).enterTimer = none := by
  decide

/-- C4: exit-then-unmount. From the entered state (`isMounted`,
`animateIsVisible`, `hasEntered` all true), `evaluate(false,
{transitionDuration: 100})` synchronously drops `hasEntered` and
`animateIsVisible`, so the output is `isVisible = false`, `isExiting = true`,
`isMounted = true` with the 100ms exit timer pending; after the exit timer
fires, `isMounted = false` and `isExiting = false`. -/
theorem claim_C4 :
    enteredState.isMounted = true ∧ enteredState.animateIsVisible = true ∧
      enteredState.hasEntered = true ∧
      (evaluate enteredState false sharedCfg100).hasEntered = false ∧
      (evaluate enteredState false sharedCfg100).animateIsVisible = false ∧
      observe (evaluate enteredState false sharedCfg100) =
        { isMounted := true, isVisible := false, isAnimating := true,
          isEntering := false, isExiting := true } ∧
      (evaluate enteredState false sharedCfg100).exitTimer = some 100 ∧
      (fireExit (evaluate enteredState false sharedCfg100)).isMounted = false ∧
      (observe (fireExit (evaluate enteredState false sharedCfg100))).isExiting = false := by
  decide

/-- C5: the first render's state is `isMounted = v0`,
`animateIsVisible = (ie ? false : v0)`, `hasEntered = (ie ? false : v0)`; in
particular constructing with `isVisible = true, initialEnter = false`
immediately yields `isMounted = true`, output `isVisible = true`,
`isAnimating = false`, while `isVisible = true, initialEnter = true` yields
`isMounted = true`, output `isVisible = false`, `isEntering = true`. -/
theorem claim_C5 :
    (∀ (v ie : Bool) (eD xD : Int),
      (initialHook v ie eD xD).isMounted = v ∧
        (initialHook v ie eD xD).animateIsVisible = (if ie then false else v) ∧
        (initialHook v ie eD xD).hasEntered = (if ie then false else v)) ∧
      observe (initialHook true false 100 100) =
        { isMounted := true, isVisible := true, isAnimating := false,
          isEntering := false, isExiting := false } ∧
      observe (initialHook true true 100 100) =
        { isMounted := true, isVisible := false, isAnimating := true,
          isEntering := true, isExiting := false } := by
  refine ⟨fun v ie eD xD => ⟨rfl, rfl, rfl⟩, by decide, by decide⟩

/-- C6: flipping the target to not-visible supersedes the pending work: from
any reachable state, `evaluate(false, ..)` leaves no pending next-paint
callback and no pending enter timer (so no stale callback can later flip
`animateIsVisible` back to true); in particular, from `MountedPreEntry`
(mounted, not yet animating, paint callback pending), evaluating with
`isVisible = false` cancels the paint callback, leaves only the exit timer
pending, and firing that exit timer unmounts. -/
theorem claim_C6 (v ie : Bool) (eD xD : Int) (h : Hook)
    (hr : ReachableFrom v ie eD xD h) (eD' xD' : Int) :
    ((evaluateD h false eD' xD').animFrame = false ∧
        (evaluateD h false eD' xD').enterTimer = none) ∧
      (mountedPreEntry.isMounted = true ∧
        mountedPreEntry.animateIsVisible = false ∧
        mountedPreEntry.animFrame = true ∧
        (evaluate mountedPreEntry false sharedCfg100).animFrame = false ∧
        (evaluate mountedPreEntry false sharedCfg100).animateIsVisible = false ∧
        (evaluate mountedPreEntry false sharedCfg100).enterTimer = none ∧
        (evaluate mountedPreEntry false sharedCfg100).exitTimer = some 100 ∧
        (fireExit (evaluate mountedPreEntry false sharedCfg100)).isMounted = false ∧
        (fireExit (evaluate mountedPreEntry false sharedCfg100)).animateIsVisible = false ∧
        (fireExit (evaluate mountedPreEntry false sharedCfg100)).animFrame = false ∧
        (fireExit (evaluate mountedPreEntry false sharedCfg100)).enterTimer = none ∧
        (fireExit (evaluate mountedPreEntry false sharedCfg100)).exitTimer = none) := by
  refine ⟨?_, by decide⟩
  have hI := inv_of_reachable v ie eD xD h hr
  obtain ⟨h1, h2, _, _⟩ := eval_false_cancels h hI eD' xD'
  exact ⟨h1, h2⟩

theorem claim_C6_witness :
    (evaluateD (initHookD true true 1 2) false 3 4).animFrame = false ∧
      (evaluateD (initHookD true true 1 2) false 3 4).enterTimer = none :=
  (claim_C6 true true 1 2 (initHookD true true 1 2) Relation.ReflTransGen.refl 3 4).1

/-- C7: with the separate-duration shape the enter timer is scheduled with
`enterTransitionDuration` and the exit timer with `exitTransitionDuration`
(e.g. 50 and 200), and with the shared shape both timers are scheduled with
`transitionDuration`. -/
theorem claim_C7 :
    (∀ e x : Int,
      resolvedEnterDuration ⟨none, some e, some x, none⟩ = some e ∧
        resolvedExitDuration ⟨none, some e, some x, none⟩ = some x) ∧
      (∀ d : Int,
        resolvedEnterDuration ⟨some d, none, none, none⟩ = some d ∧
          resolvedExitDuration ⟨some d, none, none, none⟩ = some d) ∧
      (fireAnim (evaluate (initHook false sepCfg) true sepCfg)).enterTimer = some 50 ∧
      (evaluate (initHook true sepCfg) false sepCfg).exitTimer = some 200 ∧
      (fireAnim (evaluate (initHook false sharedCfg100) true sharedCfg100)).enterTimer =
        some 100 ∧
      (evaluate (initHook true sharedCfg100) false sharedCfg100).exitTimer = some 100 := by
  refine ⟨fun e x => ⟨rfl, rfl⟩, fun d => ⟨rfl, rfl⟩, by decide, by decide, by decide,
    by decide⟩

/-- C8 counterexample: the configuration `{transitionDuration: -5}` carries a
negative duration, yet nothing rejects it — the durations resolve to `-5`
and an exit timer is scheduled with the negative delay, so the claimed
fail-fast rejection at configuration-construction time does not happen. -/
theorem claim_C8_counterexample :
    resolvedEnterDuration ⟨some (-5), none, none, none⟩ = some (-5) ∧
      resolvedExitDuration ⟨some (-5), none, none, none⟩ = some (-5) ∧
      (evaluate (initHook true ⟨some (-5), none, none, none⟩) false
          ⟨some (-5), none, none, none⟩).exitTimer = some (-5) := by
  decide

/-- C8 as amended: the code performs no runtime validation of the
configuration. Every duration — negative included — resolves to itself
unchanged, and a configuration missing the required duration fields resolves
to `undefined` (`none`) rather than being rejected; only the static type
system constrains misuse. -/
theorem claim_C8_amended_theorem :
    (∀ d : Int,
      resolvedEnterDuration ⟨some d, none, none, none⟩ = some d ∧
        resolvedExitDuration ⟨some d, none, none, none⟩ = some d) ∧
      (∀ e x : Int,
        resolvedEnterDuration ⟨none, some e, some x, none⟩ = some e ∧
          resolvedExitDuration ⟨none, some e, some x, none⟩ = some x) ∧
      resolvedEnterDuration ⟨none, none, none, none⟩ = none ∧
      resolvedExitDuration ⟨none, none, none, none⟩ = none := by
  exact ⟨fun d => ⟨rfl, rfl⟩, fun e x => ⟨rfl, rfl⟩, rfl, rfl⟩

/-- C9: the reflow-forcing guard `typeof document !== undefined` compares the
string `typeof document` against the value `undefined`, so it evaluates to
true in every environment (with or without a DOM) and never prevents the
forced-reflow branch from executing. -/
theorem claim_C9 : ∀ hasDOM : Bool, reflowGuard hasDOM = true := by
  decide

/-- C10: whenever the configuration object carries a `transitionDuration`
field, both resolved durations equal it — even when the separate
`enterTransitionDuration` / `exitTransitionDuration` fields are also present,
because `isSharedConfig` tests only the presence of `transitionDuration`. -/
theorem claim_C10 (opts : PresenceOpts) (d : Int)
    (hd : opts.transitionDuration = some d) :
    resolvedEnterDuration opts = some d ∧ resolvedExitDuration opts = some d := by
  simp [resolvedEnterDuration, resolvedExitDuration, isSharedConfig, hd]

theorem claim_C10_witness :
    (⟨some 7, some 1, some 2, none⟩ : PresenceOpts).transitionDuration = some 7 ∧
      resolvedEnterDuration ⟨some 7, some 1, some 2, none⟩ = some 7 ∧
      resolvedExitDuration ⟨some 7, some 1, some 2, none⟩ = some 7 :=
  ⟨rfl, (claim_C10 ⟨some 7, some 1, some 2, none⟩ 7 rfl).1,
    (claim_C10 ⟨some 7, some 1, some 2, none⟩ 7 rfl).2⟩
